import Mathlib

/-!
Shallow embedding of `ai_horoscope/backend/main.py` (AI Horoscope backend).

Pure functions of the source are translated into Lean functions over ℚ / ℕ /
`List Char` / `String`; Python exceptions become `Except` / `Option` values;
the external collaborators (Swiss Ephemeris, the geocoding service, the HTTP
transport) are modelled as explicit inputs describing their outcome, exactly
as the calling code observes them.  Python `%` on floats is modelled by
`pymod` (sign of the divisor), Python `round` (banker's rounding) by `rhe`,
and Python's case-insensitive ASCII lowering by `pyLower`.
-/

namespace AiHoroscope

/-- ASCII lower-casing of one character, modelling Python `str.lower` on the
ASCII strings used by the backend: uppercase letters map to their lowercase
counterpart, every other character is unchanged. -/
def pyLower (c : Char) : Char :=
  if c = 'A' then 'a' else if c = 'B' then 'b' else if c = 'C' then 'c'
  else if c = 'D' then 'd' else if c = 'E' then 'e' else if c = 'F' then 'f'
  else if c = 'G' then 'g' else if c = 'H' then 'h' else if c = 'I' then 'i'
  else if c = 'J' then 'j' else if c = 'K' then 'k' else if c = 'L' then 'l'
  else if c = 'M' then 'm' else if c = 'N' then 'n' else if c = 'O' then 'o'
  else if c = 'P' then 'p' else if c = 'Q' then 'q' else if c = 'R' then 'r'
  else if c = 'S' then 's' else if c = 'T' then 't' else if c = 'U' then 'u'
  else if c = 'V' then 'v' else if c = 'W' then 'w' else if c = 'X' then 'x'
  else if c = 'Y' then 'y' else if c = 'Z' then 'z' else c

/-- The lowercase ASCII letters (possible outputs of `pyLower` on changed
characters). -/
def lcAlpha : List Char :=
  ['a', 'b', 'c', 'd', 'e', 'f', 'g', 'h', 'i', 'j', 'k', 'l', 'm',
   'n', 'o', 'p', 'q', 'r', 's', 't', 'u', 'v', 'w', 'x', 'y', 'z']

/-- Character-wise lower-casing of a character list (Python `s.lower()`). -/
def lowerStr (l : List Char) : List Char := l.map pyLower

/-- Whether `n` is a leading run of `h` (used to detect substrings). -/
def hasPre : List Char → List Char → Bool
  | [], _ => true
  | _ :: _, [] => false
  | a :: as, b :: bs => a == b && hasPre as bs

/-- Whether `n` occurs contiguously inside `h` (Python `n in h`). -/
def hasSub (n : List Char) : List Char → Bool
  | [] => n.isEmpty
  | c :: rest => hasPre n (c :: rest) || hasSub n rest

/-- Python `s.split(sep)` for a one-character separator, over char lists:
`splitOnChar ';' "a;b" = ["a", "b"]`, and the empty string yields `[""]`. -/
def splitOnChar (sep : Char) : List Char → List (List Char)
  | [] => [[]]
  | c :: rest =>
    let r := splitOnChar sep rest
    if c = sep then [] :: r
    else
      match r with
      | [] => [[c]]
      | s :: ss => (c :: s) :: ss

/-- Python `a % b` for rationals with `b > 0` (result has the divisor's sign):
`a - b * ⌊a / b⌋`. -/
def pymod (a b : ℚ) : ℚ := a - b * ⌊a / b⌋

/-- Python `round` to an integer: round half to even (banker's rounding). -/
def rhe (x : ℚ) : ℤ :=
  if Int.fract x < 1 / 2 then ⌊x⌋
  else if 1 / 2 < Int.fract x then ⌊x⌋ + 1
  else if ⌊x⌋ % 2 = 0 then ⌊x⌋ else ⌊x⌋ + 1

/-- Python `round(q, 1)`. -/
def round1 (q : ℚ) : ℚ := (rhe (q * 10) : ℚ) / 10

/-- Python `round(q, 3)`. -/
def round3 (q : ℚ) : ℚ := (rhe (q * 1000) : ℚ) / 1000

/- ------------------------------------------------------------------ -/
/- Local moon phase (main.py, `get_local_moon_phase`, lines 133-163)  -/
/- ------------------------------------------------------------------ -/

/-- The synodic month constant of `get_local_moon_phase`: 29.53058867 days. -/
def synodicMonth : ℚ := 2953058867 / 100000000

/-- Elapsed days from the reference new moon (2000-01-06 18:14 UTC) to the
current instant after the source normalizes it to 12:00 UTC of its date.
`d` is the number of calendar days from 2000-01-06 to the instant's UTC
date, so the elapsed time is `d` days minus the 6 h 14 min between 12:00
and 18:14 (22440 s = 187/720 day). -/
def daysSinceRef (d : ℤ) : ℚ := (d : ℚ) - 187 / 720

/-- The unrounded phase of `get_local_moon_phase`:
`((now - ref).days % synodic) / synodic`. -/
def moonPhaseRaw (d : ℤ) : ℚ := pymod (daysSinceRef d) synodicMonth / synodicMonth

/-- The `phase` value returned by `get_local_moon_phase`: the unrounded phase
rounded to 3 decimal places, as a function of the UTC date (see
`daysSinceRef`). -/
def local_moon_phase (d : ℤ) : ℚ := round3 (moonPhaseRaw d)

/-- The phase-name chain of `get_local_moon_phase` (lines 143-158), verbatim
thresholds. -/
def moon_phase_title (phase : ℚ) : String :=
  if phase < 0.0625 ∨ 0.9375 ≤ phase then "New Moon"
  else if phase < 0.1875 then "Waxing Crescent"
  else if phase < 0.3125 then "First Quarter"
  else if phase < 0.4375 then "Waxing Gibbous"
  else if phase < 0.5625 then "Full Moon"
  else if phase < 0.6875 then "Waning Gibbous"
  else if phase < 0.8125 then "Last Quarter"
  else "Waning Crescent"

/-- The full result of `get_local_moon_phase`: the pair
(`moon_phase`, `moon_phase_name`). -/
def get_local_moon_phase (d : ℤ) : ℚ × String :=
  (local_moon_phase d, moon_phase_title (local_moon_phase d))

/-- The 8 lunar phase names in bucket order, used to state the spec-level
bucket property: bucket `k` (of width 1/8, centered at `k/8`, wrapping at the
ends) carries name `moon_bucket_names[k]`. -/
def moon_bucket_names : List String :=
  ["New Moon", "Waxing Crescent", "First Quarter", "Waxing Gibbous",
   "Full Moon", "Waning Gibbous", "Last Quarter", "Waning Crescent"]

/- ------------------------------------------------------------------ -/
/- Zodiac classification (main.py, `zodiac_sign`, lines 286-309)      -/
/- ------------------------------------------------------------------ -/

/-- The 12 sign names, in the order of `degree_to_sign_name`'s table (also the
calendar order starting at Aries used by `zodiac_sign`). -/
def sign_names : List String :=
  ["aries", "taurus", "gemini", "cancer", "leo", "virgo",
   "libra", "scorpio", "sagittarius", "capricorn", "aquarius", "pisces"]

/-- Translation of `zodiac_sign(month, day)` (lines 286-309): the if-chain of
calendar cutoffs, ending in `pisces`. -/
def zodiac_sign (month day : ℕ) : String :=
  if (month = 3 ∧ 21 ≤ day) ∨ (month = 4 ∧ day ≤ 19) then "aries"
  else if (month = 4 ∧ 20 ≤ day) ∨ (month = 5 ∧ day ≤ 20) then "taurus"
  else if (month = 5 ∧ 21 ≤ day) ∨ (month = 6 ∧ day ≤ 20) then "gemini"
  else if (month = 6 ∧ 21 ≤ day) ∨ (month = 7 ∧ day ≤ 22) then "cancer"
  else if (month = 7 ∧ 23 ≤ day) ∨ (month = 8 ∧ day ≤ 22) then "leo"
  else if (month = 8 ∧ 23 ≤ day) ∨ (month = 9 ∧ day ≤ 22) then "virgo"
  else if (month = 9 ∧ 23 ≤ day) ∨ (month = 10 ∧ day ≤ 22) then "libra"
  else if (month = 10 ∧ 23 ≤ day) ∨ (month = 11 ∧ day ≤ 21) then "scorpio"
  else if (month = 11 ∧ 22 ≤ day) ∨ (month = 12 ∧ day ≤ 21) then "sagittarius"
  else if (month = 12 ∧ 22 ≤ day) ∨ (month = 1 ∧ day ≤ 19) then "capricorn"
  else if (month = 1 ∧ 20 ≤ day) ∨ (month = 2 ∧ day ≤ 18) then "aquarius"
  else "pisces"

/- ------------------------------------------------------------------ -/
/- Degrees to sign names (main.py, `degree_to_sign_name`, 166-182)    -/
/- ------------------------------------------------------------------ -/

/-- Translation of `degree_to_sign_name(deg)`: `signs[int((deg % 360) // 30)]`. -/
def degree_to_sign_name (deg : ℚ) : String :=
  sign_names.getD (Int.toNat ⌊pymod deg 360 / 30⌋) ""

/- ------------------------------------------------------------------ -/
/- House cusps (main.py, `compute_house_cusps`, lines 248-284)        -/
/- ------------------------------------------------------------------ -/

/-- One entry of the list built by `compute_house_cusps`:
`{"house": ..., "sign": ..., "degree": ...}`. -/
structure HouseCusp where
  house : ℕ
  sign : String
  degree : ℚ
deriving DecidableEq

/-- Translation of `compute_house_cusps` from the call `swe.houses(jd, lat,
lon)` on: the ephemeris outcome is passed in explicitly (`Except.error` when
`swe.houses` raises — the source does NOT wrap this call in `try`, so the
exception propagates).  On success the source selects indices 1..12 of a
13-or-more element cusp array, else indices `0..min(12, len)-1`, and numbers
the entries with `house_num` starting at 1. -/
def compute_house_cusps (ephemeris : Except String (List ℚ)) :
    Except String (List HouseCusp) :=
  match ephemeris with
  | .error e => .error e
  | .ok cusps =>
    let indices : List ℕ :=
      if 13 ≤ cusps.length then (List.range 12).map (fun i => i + 1)
      else List.range (min 12 cusps.length)
    .ok (indices.enum.map (fun p =>
      { house := p.1 + 1
        sign := degree_to_sign_name (cusps.getD p.2 0)
        degree := round1 (pymod (cusps.getD p.2 0) 30) }))

/-- The request handler's use of `compute_house_cusps` (main.py lines
394-397): the call is wrapped in `try`, and any exception yields `houses = []`. -/
def horoscope_houses (ephemeris : Except String (List ℚ)) : List HouseCusp :=
  match compute_house_cusps ephemeris with
  | .error _ => []
  | .ok hs => hs

/- ------------------------------------------------------------------ -/
/- Natal summary (main.py, `compute_natal_summary`, lines 185-245)    -/
/- ------------------------------------------------------------------ -/

/-- The fixed body order of the `planets` dict in `compute_natal_summary`. -/
def planetNames : List String :=
  ["Sun", "Moon", "Mercury", "Venus", "Mars",
   "Jupiter", "Saturn", "Uranus", "Neptune", "Pluto"]

/-- Python `f"{q:.1f}"` for the nonnegative degrees formatted by the source:
one decimal place, banker's rounding. -/
def fmt1 (q : ℚ) : String :=
  toString (rhe (q * 10) / 10) ++ "." ++ toString (rhe (q * 10) % 10)

/-- Translation of `compute_natal_summary` from the ephemeris calls on: the
outcome of the ascendant computation (`none` when `swe.houses` raises, caught
by the source) and of each of the 10 `swe.calc_ut` calls (`none` when the
call raises, caught by the source; the value is the body's longitude) are
passed in explicitly.  The source joins an ascendant part and a single
`"Planets: "` part (comma-joined, first 6 successful bodies) with `"; "`. -/
def compute_natal_summary (asc_deg : Option ℚ) (planet_degs : List (Option ℚ)) :
    String :=
  let parts : List String :=
    match asc_deg with
    | some d => ["Ascendant: " ++ degree_to_sign_name d ++ " (" ++ fmt1 d ++ "°)"]
    | none => []
  let planet_parts : List String :=
    (planetNames.zip planet_degs).filterMap
      (fun p => p.2.map (fun d => p.1 ++ " in " ++ degree_to_sign_name d ++ " (" ++ fmt1 d ++ "°)"))
  let parts2 : List String :=
    if planet_parts = [] then parts
    else parts ++ ["Planets: " ++ String.intercalate ", " (planet_parts.take 6)]
  String.intercalate "; " parts2

/-- The ascendant clause format of the source:
`f"Ascendant: {asc_sign} ({asc_deg:.1f}°)"`. -/
def ascendant_clause (d : ℚ) : String :=
  "Ascendant: " ++ degree_to_sign_name d ++ " (" ++ fmt1 d ++ "°)"

/-- The per-body clause format of the source:
`f"{name} in {sign_name} ({lonp:.1f}°)"`. -/
def planet_clause (n : String) (d : ℚ) : String :=
  n ++ " in " ++ degree_to_sign_name d ++ " (" ++ fmt1 d ++ "°)"

/-- The clauses of the successfully computed bodies, in the fixed body order,
skipping exactly the failed ones. -/
def successful_planet_clauses : List (String × Option ℚ) → List String
  | [] => []
  | (n, some d) :: rest => planet_clause n d :: successful_planet_clauses rest
  | (_, none) :: rest => successful_planet_clauses rest

/-- Claim C8's reading of the output format (for refutation): a
semicolon-joined list whose elements are the ascendant clause followed by the
individual planet clauses (up to 6). -/
def claim_natal_summary (asc_deg : Option ℚ) (planet_degs : List (Option ℚ)) :
    String :=
  String.intercalate "; "
    ((asc_deg.map ascendant_clause).toList ++
      (successful_planet_clauses (planetNames.zip planet_degs)).take 6)

/-- The corrected reading of the output format: the semicolon-joined list has
at most two elements — the ascendant clause (when the ascendant succeeded)
and one `"Planets: "` clause holding the comma-joined clauses of the first 6
successful bodies (when at least one body succeeded). -/
def amended_natal_summary (asc_deg : Option ℚ) (planet_degs : List (Option ℚ)) :
    String :=
  let ps : List String :=
    (successful_planet_clauses (planetNames.zip planet_degs)).take 6
  String.intercalate "; "
    ((asc_deg.map ascendant_clause).toList ++
      (if ps = [] then [] else ["Planets: " ++ String.intercalate ", " ps]))

/- ------------------------------------------------------------------ -/
/- Local fallback generator (main.py, `local_fallback`, 463-548)      -/
/- ------------------------------------------------------------------ -/

/-- The three template buckets of `local_fallback`. -/
inductive ToneBucket where
  | serious
  | inspirational
  | playful
deriving DecidableEq

/-- The bucket-selection branch of `local_fallback` (lines 485, 504, 523):
`if tone and 'serious' in tone.lower(): ... elif tone and 'inspir' in
tone.lower(): ... else: ...`.  `tone` is `none` when absent; the Python
truthiness test makes the empty string fall to the else branch too. -/
def local_fallback_bucket (tone : Option String) : ToneBucket :=
  match tone with
  | none => ToneBucket.playful
  | some t =>
    if t ≠ "" ∧ hasSub "serious".toList (lowerStr t.toList) = true then ToneBucket.serious
    else if t ≠ "" ∧ hasSub "inspir".toList (lowerStr t.toList) = true then ToneBucket.inspirational
    else ToneBucket.playful

/-- Claim C1's formulation of the bucket choice: case-insensitive substring
tests in fixed order, with `none` (and anything matching neither) playful. -/
def claim_tone_bucket (tone : Option String) : ToneBucket :=
  match tone with
  | none => ToneBucket.playful
  | some t =>
    if hasSub "serious".toList (lowerStr t.toList) = true then ToneBucket.serious
    else if hasSub "inspir".toList (lowerStr t.toList) = true then ToneBucket.inspirational
    else ToneBucket.playful

/-- The chart-feature candidate list of `local_fallback` (lines 480-482):
`[f for f in natal_summary.split(';') if f.strip()]` guarded by
`if natal_summary:` (so `none` and the empty string yield no candidates). -/
def chart_features (natal_summary : Option String) : List (List Char) :=
  match natal_summary with
  | none => []
  | some s =>
    if s = "" then []
    else (splitOnChar ';' s.toList).filter (fun f => f.any (fun c => !c.isWhitespace))

/-- The chart feature of `local_fallback` (line 483):
`random.choice(chart_features) if chart_features else f"Ascendant in {sign}"`.
The seeded uniform draw is modelled by an arbitrary index `choice`, reduced
modulo the number of candidates. -/
def chart_feature (choice : ℕ) (natal_summary : Option String) (sign : String) :
    List Char :=
  if chart_features natal_summary = [] then ("Ascendant in " ++ sign).toList
  else (chart_features natal_summary).getD
    (choice % (chart_features natal_summary).length) []

/- ------------------------------------------------------------------ -/
/- Fallback trigger (main.py, `horoscope`, lines 439-553)             -/
/- ------------------------------------------------------------------ -/

/-- The error-sniffing condition of line 462, verbatim: `'quota' in
err_text.lower() or '429' in err_text or 'insufficient_quota' in err_text or
'not configured' in err_text.lower() or 'openai' in err_text.lower()`
(note: the 2nd and 3rd tests do NOT lower-case `err_text`). -/
def quota_error_check (err : String) : Bool :=
  hasSub "quota".toList (lowerStr err.toList) ||
  hasSub "429".toList err.toList ||
  hasSub "insufficient_quota".toList err.toList ||
  hasSub "not configured".toList (lowerStr err.toList) ||
  hasSub "openai".toList (lowerStr err.toList)

/-- Case-insensitive containment of `needle` (given in lowercase) in `err`. -/
def contains_ci (needle err : String) : Bool :=
  hasSub needle.toList (lowerStr err.toList)

/-- Claim C3's formulation: all five substring tests case-insensitive. -/
def claim_fallback_condition (err : String) : Bool :=
  contains_ci "quota" err || contains_ci "429" err ||
  contains_ci "insufficient_quota" err || contains_ci "not configured" err ||
  contains_ci "openai" err

/-- What the `except` branch of the OpenAI call does (lines 456-553). -/
inductive PrimaryErrorAction where
  | local_fallback_used
  | gateway_error (code : ℕ)
deriving DecidableEq

/-- The handler's reaction to a primary-generator exception with message
`err`: run `local_fallback` when `quota_error_check` matches, else raise
`HTTPException(502)`. -/
def primary_error_action (err : String) : PrimaryErrorAction :=
  if quota_error_check err = true then PrimaryErrorAction.local_fallback_used
  else PrimaryErrorAction.gateway_error 502

/- ------------------------------------------------------------------ -/
/- Geocoding (main.py, `geocode_location` 67-90, `horoscope` 379-402) -/
/- ------------------------------------------------------------------ -/

/-- What the Nominatim call inside `geocode_location` can produce, as the
source observes it: an HTTP response (status + candidate list) or a transport
exception (timeout, DNS failure, ...). -/
inductive UpstreamGeo where
  | response (status : ℕ) (results : List (ℚ × ℚ))
  | netExc (msg : String)

/-- How a `geocode_location` call ends. -/
inductive GeoOutcome where
  | ok (lat lon : ℚ)
  | httpExc (code : ℕ) (detail : String)
  | exc (msg : String)
deriving DecidableEq

/-- Translation of `geocode_location` (cache aside, which only replays an
earlier success): non-200 → `HTTPException(502)`, empty candidate list →
`HTTPException(400)`, first candidate's coordinates otherwise; a transport
exception propagates unchanged. -/
def geocode_location : UpstreamGeo → GeoOutcome
  | .netExc m => .exc m
  | .response status results =>
    if status ≠ 200 then .httpExc 502 "Geocoding service error"
    else
      match results with
      | [] => .httpExc 400 "Could not geocode birth location"
      | (lat, lon) :: _ => .ok lat lon

/-- How the `horoscope` handler continues after the geocoding step. -/
inductive GeoHandling where
  | abort (code : ℕ) (detail : String)
  | proceedWith (coords : Option (ℚ × ℚ))
deriving DecidableEq

/-- Translation of lines 379-386: `except HTTPException: raise` (abort with
that HTTP error), `except Exception: lat = lon = None` (continue without
coordinates). -/
def horoscope_geo_step : GeoOutcome → GeoHandling
  | .httpExc c d => .abort c d
  | .exc _ => .proceedWith none
  | .ok lat lon => .proceedWith (some (lat, lon))

/-- Line 388: the natal summary, house cusps and astronomy fetch run only
under `if lat is not None and lon is not None`. -/
def runs_astrology : GeoHandling → Bool
  | .proceedWith (some _) => true
  | _ => false

/- ------------------------------------------------------------------ -/
/- Request validation (main.py, `horoscope`, lines 331-377)           -/
/- ------------------------------------------------------------------ -/

/-- Gregorian leap year (for the model of `date.fromisoformat`). -/
def leapYear (y : ℕ) : Bool :=
  y % 4 = 0 && (y % 100 != 0 || y % 400 = 0)

/-- Days in a month (for the model of `date.fromisoformat`). -/
def days_in_month (y m : ℕ) : ℕ :=
  if m = 2 then (if leapYear y then 29 else 28)
  else if m = 4 ∨ m = 6 ∨ m = 9 ∨ m = 11 then 30 else 31

/-- Digits of a numeral to its value. -/
def natFromDigits (l : List Char) : ℕ :=
  l.foldl (fun acc c => acc * 10 + (c.toNat - 48)) 0

/-- Model of Python `datetime.date.fromisoformat` restricted to the
`YYYY-MM-DD` shape the endpoint documents: `none` models the `ValueError`
raised on any other shape or on an invalid calendar date. -/
def date_fromisoformat (s : String) : Option (ℕ × ℕ × ℕ) :=
  match splitOnChar '-' s.toList with
  | [y, m, d] =>
    if y.length = 4 ∧ m.length = 2 ∧ d.length = 2 ∧ (y ++ m ++ d).all Char.isDigit then
      let yn := natFromDigits y
      let mn := natFromDigits m
      let dn := natFromDigits d
      if 1 ≤ mn ∧ mn ≤ 12 ∧ 1 ≤ dn ∧ dn ≤ days_in_month yn mn then
        some (yn, mn, dn)
      else none
    else none
  | _ => none

/-- Lines 349-352: `date.fromisoformat(birthday)`, where `birthday` may be
absent (`None`, on which `fromisoformat` raises `TypeError`) — any exception
is mapped to the 400 below. -/
def parse_birthday : Option String → Option (ℕ × ℕ × ℕ)
  | none => none
  | some s => date_fromisoformat s

/-- Python falsiness of an optional string (`not birth_time`). -/
def falsyStr : Option String → Bool
  | none => true
  | some s => s = ""

/-- Outcome of the handler's validation prefix. -/
inductive ValidationOutcome where
  | httpError (code : ℕ) (detail : String)
  | validated (bday : ℕ × ℕ × ℕ)
deriving DecidableEq

/-- Translation of the `horoscope` validation order: birthday parsing (lines
349-352) runs first and raises `HTTPException(400, "Invalid birthday
format")` on failure; only then (line 376) are `birth_time` and
`birth_location` required. -/
def validate_request (birthday birth_time birth_location : Option String) :
    ValidationOutcome :=
  match parse_birthday birthday with
  | none => .httpError 400 "Invalid birthday format"
  | some b =>
    if falsyStr birth_time || falsyStr birth_location then
      .httpError 400 "Both birth_time and birth_location are required"
    else .validated b

/- ================================================================== -/
/- Theorems                                                           -/
/- ================================================================== -/

theorem hasPre_iff : ∀ (n h : List Char), hasPre n h = true ↔ ∃ t, h = n ++ t := by
  intro n
  induction n with
  | nil => intro h; simp [hasPre]
  | cons a as ih =>
    intro h
    cases h with
    | nil => simp [hasPre]
    | cons b bs =>
      rw [hasPre]
      simp only [Bool.and_eq_true, beq_iff_eq, ih bs, List.cons_append]
      constructor
      · rintro ⟨rfl, t, rfl⟩
        exact ⟨t, rfl⟩
      · rintro ⟨t, ht⟩
        injection ht with h1 h2
        exact ⟨h1.symm, t, h2⟩

theorem hasSub_iff : ∀ (n h : List Char), hasSub n h = true ↔ ∃ a b, h = a ++ n ++ b := by
  intro n h
  induction h with
  | nil =>
    rw [hasSub]
    simp only [List.isEmpty_iff]
    constructor
    · rintro rfl
      exact ⟨[], [], rfl⟩
    · rintro ⟨a, b, hab⟩
      have h2 := List.append_eq_nil.mp hab.symm
      exact (List.append_eq_nil.mp h2.1).2
  | cons c rest ih =>
    rw [hasSub]
    simp only [Bool.or_eq_true, hasPre_iff, ih]
    constructor
    · rintro (⟨t, ht⟩ | ⟨a, b, rfl⟩)
      · exact ⟨[], t, by simpa using ht⟩
      · exact ⟨c :: a, b, by simp⟩
    · rintro ⟨a, b, hab⟩
      cases a with
      | nil =>
        left
        exact ⟨b, by simpa using hab⟩
      | cons a0 as =>
        right
        simp only [List.cons_append] at hab
        injection hab with h1 h2
        exact ⟨as, b, h2⟩

theorem hasSub_map (f : Char → Char) (n h : List Char) (hs : hasSub n h = true) :
    hasSub (n.map f) (h.map f) = true := by
  rw [hasSub_iff] at hs ⊢
  obtain ⟨a, b, rfl⟩ := hs
  exact ⟨a.map f, b.map f, by simp⟩

theorem hasSub_trans (n m h : List Char) (h1 : hasSub n m = true)
    (h2 : hasSub m h = true) : hasSub n h = true := by
  rw [hasSub_iff] at h1 h2 ⊢
  obtain ⟨a, b, rfl⟩ := h1
  obtain ⟨u, v, rfl⟩ := h2
  exact ⟨u ++ a, b ++ v, by simp⟩

theorem pyLower_fix_or_alpha (c : Char) : pyLower c = c ∨ pyLower c ∈ lcAlpha := by
  by_cases h1 : c = 'A'
  · subst h1; decide
  by_cases h2 : c = 'B'
  · subst h2; decide
  by_cases h3 : c = 'C'
  · subst h3; decide
  by_cases h4 : c = 'D'
  · subst h4; decide
  by_cases h5 : c = 'E'
  · subst h5; decide
  by_cases h6 : c = 'F'
  · subst h6; decide
  by_cases h7 : c = 'G'
  · subst h7; decide
  by_cases h8 : c = 'H'
  · subst h8; decide
  by_cases h9 : c = 'I'
  · subst h9; decide
  by_cases h10 : c = 'J'
  · subst h10; decide
  by_cases h11 : c = 'K'
  · subst h11; decide
  by_cases h12 : c = 'L'
  · subst h12; decide
  by_cases h13 : c = 'M'
  · subst h13; decide
  by_cases h14 : c = 'N'
  · subst h14; decide
  by_cases h15 : c = 'O'
  · subst h15; decide
  by_cases h16 : c = 'P'
  · subst h16; decide
  by_cases h17 : c = 'Q'
  · subst h17; decide
  by_cases h18 : c = 'R'
  · subst h18; decide
  by_cases h19 : c = 'S'
  · subst h19; decide
  by_cases h20 : c = 'T'
  · subst h20; decide
  by_cases h21 : c = 'U'
  · subst h21; decide
  by_cases h22 : c = 'V'
  · subst h22; decide
  by_cases h23 : c = 'W'
  · subst h23; decide
  by_cases h24 : c = 'X'
  · subst h24; decide
  by_cases h25 : c = 'Y'
  · subst h25; decide
  by_cases h26 : c = 'Z'
  · subst h26; decide
  left
  unfold pyLower
  rw [if_neg h1, if_neg h2, if_neg h3, if_neg h4, if_neg h5, if_neg h6,
    if_neg h7, if_neg h8, if_neg h9, if_neg h10, if_neg h11, if_neg h12,
    if_neg h13, if_neg h14, if_neg h15, if_neg h16, if_neg h17, if_neg h18,
    if_neg h19, if_neg h20, if_neg h21, if_neg h22, if_neg h23, if_neg h24,
    if_neg h25, if_neg h26]

theorem pyLower_eq_of_not_alpha {c d : Char} (hd : d ∉ lcAlpha)
    (h : pyLower c = d) : c = d := by
  rcases pyLower_fix_or_alpha c with h1 | h1
  · rw [h1] at h
    exact h
  · rw [h] at h1
    exact absurd h1 hd

theorem map_pyLower_eq_of_not_alpha :
    ∀ (m t : List Char), (∀ x ∈ t, x ∉ lcAlpha) → m.map pyLower = t → m = t := by
  intro m
  induction m with
  | nil =>
    intro t _ h
    simpa using h
  | cons c cs ih =>
    intro t ht h
    cases t with
    | nil => simp at h
    | cons d ds =>
      simp only [List.map_cons] at h
      injection h with h1 h2
      have hc : c = d := pyLower_eq_of_not_alpha (ht d (by simp)) h1
      have hcs := ih ds (fun x hx => ht x (by simp [hx])) h2
      simp [hc, hcs]

theorem map_split (f : Char → Char) :
    ∀ (l s t : List Char), l.map f = s ++ t →
      ∃ u v, l = u ++ v ∧ u.map f = s ∧ v.map f = t := by
  intro l
  induction l with
  | nil =>
    intro s t h
    obtain ⟨hs, ht⟩ := List.append_eq_nil.mp h.symm
    exact ⟨[], [], by simp, by simp [hs], by simp [ht]⟩
  | cons c cs ih =>
    intro s t h
    cases s with
    | nil => exact ⟨[], c :: cs, by simp, by simp, by simpa using h⟩
    | cons s0 ss =>
      simp only [List.map_cons, List.cons_append] at h
      injection h with h1 h2
      obtain ⟨u, v, hl, hu, hv⟩ := ih ss t h2
      exact ⟨c :: u, v, by simp [hl], by simp [h1, hu], hv⟩

theorem hasSub_of_lower (n : List Char) (hn : ∀ x ∈ n, x ∉ lcAlpha)
    (l : List Char) (hs : hasSub n (lowerStr l) = true) : hasSub n l = true := by
  rw [hasSub_iff] at hs ⊢
  obtain ⟨a, b, hab⟩ := hs
  obtain ⟨u, w, hl, hu, _⟩ :=
    map_split pyLower l (a ++ n) b (by simpa [lowerStr] using hab)
  obtain ⟨u1, u2, hu12, _, hn2⟩ := map_split pyLower u a n hu
  have hu2 : u2 = n := map_pyLower_eq_of_not_alpha u2 n hn hn2
  exact ⟨u1, w, by simp [hl, hu12, hu2]⟩

theorem quota_check_eq_claim (err : String) :
    quota_error_check err = claim_fallback_condition err := by
  rw [Bool.eq_iff_iff]
  unfold quota_error_check claim_fallback_condition contains_ci
  simp only [Bool.or_eq_true, or_assoc]
  constructor
  · rintro (h | h | h | h | h)
    · exact Or.inl h
    · refine Or.inr (Or.inl ?_)
      have h2 := hasSub_map pyLower _ _ h
      rw [show "429".toList.map pyLower = "429".toList from by decide] at h2
      exact h2
    · refine Or.inr (Or.inr (Or.inl ?_))
      have h2 := hasSub_map pyLower _ _ h
      rw [show "insufficient_quota".toList.map pyLower = "insufficient_quota".toList
            from by decide] at h2
      exact h2
    · exact Or.inr (Or.inr (Or.inr (Or.inl h)))
    · exact Or.inr (Or.inr (Or.inr (Or.inr h)))
  · rintro (h | h | h | h | h)
    · exact Or.inl h
    · exact Or.inr (Or.inl (hasSub_of_lower "429".toList (by decide) err.toList h))
    · exact Or.inl
        (hasSub_trans "quota".toList "insufficient_quota".toList _ (by decide) h)
    · exact Or.inr (Or.inr (Or.inr (Or.inl h)))
    · exact Or.inr (Or.inr (Or.inr (Or.inr h)))

/-- Claim C1: for every tone value (including an absent tone),
`local_fallback` selects exactly one of three template buckets by
case-insensitive substring match in fixed order — `serious` before `inspir`,
everything else (including `None`) playful; in particular tone
`"Serious Thoughts"` selects the serious bucket and absent tone the playful
bucket. -/
theorem c1_tone_bucket_selection :
    (∀ tone : Option String, local_fallback_bucket tone = claim_tone_bucket tone)
    ∧ local_fallback_bucket (some "Serious Thoughts") = ToneBucket.serious
    ∧ local_fallback_bucket none = ToneBucket.playful := by
  refine ⟨?_, by decide, rfl⟩
  intro tone
  cases tone with
  | none => rfl
  | some t =>
    by_cases ht : t = ""
    · subst ht
      decide
    · simp [local_fallback_bucket, claim_tone_bucket, ht]

/-- Claim C2: the chart feature of `local_fallback` is drawn among the
segments of the natal summary split on `';'` with whitespace-only segments
dropped (every segment index is reachable by some draw), and when the natal
summary is absent or yields no non-empty segment the feature is exactly
`"Ascendant in " ++ sign`. -/
theorem c2_chart_feature_selection :
    (∀ (choice : ℕ) (sign : String),
        chart_feature choice none sign = ("Ascendant in " ++ sign).toList)
    ∧ (∀ (choice : ℕ) (s : String) (sign : String), chart_features (some s) = [] →
        chart_feature choice (some s) sign = ("Ascendant in " ++ sign).toList)
    ∧ (∀ (natal : Option String) (sign : String) (i : ℕ),
        i < (chart_features natal).length →
        chart_feature i natal sign = (chart_features natal).getD i [])
    ∧ chart_features (some "Ascendant: aries (5.0°); Planets: Sun in aries (0.0°)")
        = ["Ascendant: aries (5.0°)".toList, " Planets: Sun in aries (0.0°)".toList] := by
  refine ⟨fun _ _ => rfl, ?_, ?_, by decide⟩
  · intro choice s sign h
    simp [chart_feature, h]
  · intro natal sign i hi
    have hne : chart_features natal ≠ [] := by
      intro h0
      rw [h0] at hi
      simp at hi
    unfold chart_feature
    rw [if_neg hne, Nat.mod_eq_of_lt hi]

/-- Claim C2 witness: drawing index 1 on the natal summary `"a;b"` yields the
second segment. -/
theorem c2_chart_feature_selection_witness :
    chart_feature 1 (some "a;b") "leo" = ['b'] := by
  have h := c2_chart_feature_selection.2.2.1 (some "a;b") "leo" 1 (by decide)
  rw [h]
  decide

/-- Claim C3: the local fallback is used if and only if the primary
generator's error message contains, case-insensitively, one of `"quota"`,
`"429"`, `"insufficient_quota"`, `"not configured"`, `"openai"`; otherwise
the handler surfaces HTTP 502.  The missing-credential message
`"OpenAI client not configured"` triggers the fallback. -/
theorem c3_fallback_trigger :
    (∀ err : String,
        primary_error_action err = PrimaryErrorAction.local_fallback_used
          ↔ claim_fallback_condition err = true)
    ∧ (∀ err : String,
        primary_error_action err = PrimaryErrorAction.gateway_error 502
          ↔ claim_fallback_condition err = false)
    ∧ primary_error_action "OpenAI client not configured"
        = PrimaryErrorAction.local_fallback_used := by
  refine ⟨?_, ?_, by decide⟩
  · intro err
    unfold primary_error_action
    rw [quota_check_eq_claim err]
    split_ifs with h
    · simp [h]
    · simp [h]
  · intro err
    unfold primary_error_action
    rw [quota_check_eq_claim err]
    split_ifs with h
    · simp [h]
    · simp [Bool.not_eq_true] at h
      simp [h]

/-- Claim C10: a request without a birthday gets HTTP 400 with detail
`"Invalid birthday format"` whatever the other fields hold (so the
required-field check for birth_time / birth_location is never reached), and a
malformed birthday is reported identically. -/
theorem c10_missing_birthday :
    (∀ birth_time birth_location : Option String,
        validate_request none birth_time birth_location
          = ValidationOutcome.httpError 400 "Invalid birthday format")
    ∧ validate_request none none none
        = ValidationOutcome.httpError 400 "Invalid birthday format"
    ∧ (∀ birth_time birth_location : Option String,
        validate_request (some "not-a-date") birth_time birth_location
          = ValidationOutcome.httpError 400 "Invalid birthday format") := by
  refine ⟨fun _ _ => rfl, rfl, fun _ _ => ?_⟩
  have h : parse_birthday (some "not-a-date") = none := by decide
  simp [validate_request, h]

theorem pymod_div_eq_fract (a b : ℚ) (hb : b ≠ 0) :
    pymod a b / b = Int.fract (a / b) := by
  unfold pymod
  rw [Int.fract]
  field_simp

theorem rhe_cases (x : ℚ) : rhe x = ⌊x⌋ ∨ rhe x = ⌊x⌋ + 1 := by
  unfold rhe
  split_ifs <;> simp

/-- Claim C4 (amended): the Local Moon Phase Fallback's unrounded phase is
exactly the fractional remainder of the elapsed days divided by the synodic
month, and the returned rounded phase lies in the closed interval [0,1]
(rounding to 3 decimals can reach 1, see the counterexample). -/
theorem c4_moon_phase_fract_and_range :
    (∀ d : ℤ, moonPhaseRaw d = Int.fract (daysSinceRef d / synodicMonth))
    ∧ (∀ d : ℤ, 0 ≤ local_moon_phase d ∧ local_moon_phase d ≤ 1) := by
  have hsyn : (synodicMonth : ℚ) ≠ 0 := by norm_num [synodicMonth]
  have hfract : ∀ d : ℤ, moonPhaseRaw d = Int.fract (daysSinceRef d / synodicMonth) := by
    intro d
    unfold moonPhaseRaw
    exact pymod_div_eq_fract _ _ hsyn
  refine ⟨hfract, ?_⟩
  intro d
  have hraw0 : 0 ≤ moonPhaseRaw d := by
    rw [hfract d]
    exact Int.fract_nonneg _
  have hraw1 : moonPhaseRaw d < 1 := by
    rw [hfract d]
    exact Int.fract_lt_one _
  have hx0 : 0 ≤ moonPhaseRaw d * 1000 := by linarith
  have hx1 : moonPhaseRaw d * 1000 < 1000 := by linarith
  have hf0 : (0 : ℤ) ≤ ⌊moonPhaseRaw d * 1000⌋ := Int.floor_nonneg.mpr hx0
  have hf1 : ⌊moonPhaseRaw d * 1000⌋ < 1000 := Int.floor_lt.mpr (by push_cast; linarith)
  unfold local_moon_phase round3
  rcases rhe_cases (moonPhaseRaw d * 1000) with h | h <;> rw [h] <;> constructor
  · refine div_nonneg ?_ (by norm_num)
    exact_mod_cast hf0
  · rw [div_le_one (by norm_num)]
    exact_mod_cast hf1.le
  · refine div_nonneg ?_ (by norm_num)
    have hge : (0 : ℤ) ≤ ⌊moonPhaseRaw d * 1000⌋ + 1 := by omega
    exact_mod_cast hge
  · rw [div_le_one (by norm_num)]
    have hle : ⌊moonPhaseRaw d * 1000⌋ + 1 ≤ 1000 := by omega
    exact_mod_cast hle

/-- Claim C4 counterexample: 8446 days after the reference date 2000-01-06 —
i.e. on 2023-02-20 UTC, where the unrounded phase is about 0.99973 — the
value returned by `get_local_moon_phase` is exactly 1, which is NOT in the
claimed half-open interval [0,1). -/
theorem c4_phase_reaches_one :
    local_moon_phase 8446 = 1 ∧ ¬ local_moon_phase 8446 < 1 := by
  have h1 : moonPhaseRaw 8446 = 26570256145 / 26577529803 := by
    unfold moonPhaseRaw pymod daysSinceRef synodicMonth
    rw [show ⌊((((8446 : ℤ) : ℚ) - 187 / 720) / (2953058867 / 100000000))⌋ = 285
          from by norm_num]
    norm_num
  have hfr : Int.fract ((26570256145 / 26577529803 : ℚ) * 1000)
      = 19303871803 / 26577529803 := by
    norm_num [Int.fract]
  have h2 : rhe (moonPhaseRaw 8446 * 1000) = 1000 := by
    rw [h1]
    unfold rhe
    rw [hfr]
    rw [if_neg (by norm_num), if_pos (by norm_num)]
    norm_num
  have h : local_moon_phase 8446 = 1 := by
    unfold local_moon_phase round3
    rw [h2]
    norm_num
  exact ⟨h, by rw [h]; simp⟩

/-- Claim C5: on [0,1) the phase-name chain realizes 8 equal-width buckets of
1/8 centered at k/8 (name k of `moon_bucket_names`), wrapping at the ends so
that bucket 0 is "New Moon"; in particular phase 0.0 and phase 0.999 both map
to "New Moon".  Exhaustiveness and disjointness hold because every value gets
exactly the one name of its bucket index. -/
theorem c5_phase_name_buckets :
    (∀ p : ℚ, 0 ≤ p → p < 1 →
        moon_phase_title p = moon_bucket_names.getD (Int.toNat ⌊8 * p + 1/2⌋ % 8) "")
    ∧ moon_phase_title 0 = "New Moon"
    ∧ moon_phase_title (999/1000) = "New Moon" := by
  refine ⟨?_, by norm_num [moon_phase_title], by norm_num [moon_phase_title]⟩
  intro p h0 h1
  unfold moon_phase_title
  split_ifs with hc1 hc2 hc3 hc4 hc5 hc6 hc7
  · rcases hc1 with ha | hb
    · norm_num at ha
      have hf : ⌊8 * p + 1/2⌋ = 0 := by
        rw [Int.floor_eq_iff]
        push_cast
        constructor <;> linarith
      rw [hf]
      rfl
    · norm_num at hb
      have hf : ⌊8 * p + 1/2⌋ = 8 := by
        rw [Int.floor_eq_iff]
        push_cast
        constructor <;> linarith
      rw [hf]
      rfl
  · push_neg at hc1
    norm_num at hc1 hc2
    have hf : ⌊8 * p + 1/2⌋ = 1 := by
      rw [Int.floor_eq_iff]
      push_cast
      constructor <;> linarith [hc1.1]
    rw [hf]
    rfl
  · push_neg at hc1 hc2
    norm_num at hc1 hc2 hc3
    have hf : ⌊8 * p + 1/2⌋ = 2 := by
      rw [Int.floor_eq_iff]
      push_cast
      constructor <;> linarith
    rw [hf]
    rfl
  · push_neg at hc1 hc3
    norm_num at hc1 hc3 hc4
    have hf : ⌊8 * p + 1/2⌋ = 3 := by
      rw [Int.floor_eq_iff]
      push_cast
      constructor <;> linarith
    rw [hf]
    rfl
  · push_neg at hc1 hc4
    norm_num at hc1 hc4 hc5
    have hf : ⌊8 * p + 1/2⌋ = 4 := by
      rw [Int.floor_eq_iff]
      push_cast
      constructor <;> linarith
    rw [hf]
    rfl
  · push_neg at hc1 hc5
    norm_num at hc1 hc5 hc6
    have hf : ⌊8 * p + 1/2⌋ = 5 := by
      rw [Int.floor_eq_iff]
      push_cast
      constructor <;> linarith
    rw [hf]
    rfl
  · push_neg at hc1 hc6
    norm_num at hc1 hc6 hc7
    have hf : ⌊8 * p + 1/2⌋ = 6 := by
      rw [Int.floor_eq_iff]
      push_cast
      constructor <;> linarith
    rw [hf]
    rfl
  · push_neg at hc1 hc7
    norm_num at hc1 hc7
    have hf : ⌊8 * p + 1/2⌋ = 7 := by
      rw [Int.floor_eq_iff]
      push_cast
      constructor <;> linarith [hc1.2]
    rw [hf]
    rfl

/-- Claim C5 witness: phase 1/2 lies in bucket 4, "Full Moon". -/
theorem c5_phase_name_buckets_witness :
    moon_phase_title (1/2) = "Full Moon" := by
  have h := c5_phase_name_buckets.1 (1/2) (by norm_num) (by norm_num)
  rw [h, show ⌊8 * (1/2 : ℚ) + 1/2⌋ = 4 from by norm_num]
  rfl

set_option maxHeartbeats 4000000 in
/-- Claim C6: for every calendar pair (1 ≤ month ≤ 12, 1 ≤ day ≤ 31, hence in
particular every day valid for its month), `zodiac_sign` returns exactly one
of the 12 sign names, and its value is characterized by the fixed Western
tropical cutoffs in which each boundary day belongs to the later sign; in
particular Mar 20 → pisces and Mar 21 → aries. -/
theorem c6_zodiac_sign_total_and_cutoffs :
    (∀ month day : ℕ, 1 ≤ month → month ≤ 12 → 1 ≤ day → day ≤ 31 →
        zodiac_sign month day ∈ sign_names
      ∧ (zodiac_sign month day = "aries" ↔ (month = 3 ∧ 21 ≤ day) ∨ (month = 4 ∧ day ≤ 19))
      ∧ (zodiac_sign month day = "taurus" ↔ (month = 4 ∧ 20 ≤ day) ∨ (month = 5 ∧ day ≤ 20))
      ∧ (zodiac_sign month day = "gemini" ↔ (month = 5 ∧ 21 ≤ day) ∨ (month = 6 ∧ day ≤ 20))
      ∧ (zodiac_sign month day = "cancer" ↔ (month = 6 ∧ 21 ≤ day) ∨ (month = 7 ∧ day ≤ 22))
      ∧ (zodiac_sign month day = "leo" ↔ (month = 7 ∧ 23 ≤ day) ∨ (month = 8 ∧ day ≤ 22))
      ∧ (zodiac_sign month day = "virgo" ↔ (month = 8 ∧ 23 ≤ day) ∨ (month = 9 ∧ day ≤ 22))
      ∧ (zodiac_sign month day = "libra" ↔ (month = 9 ∧ 23 ≤ day) ∨ (month = 10 ∧ day ≤ 22))
      ∧ (zodiac_sign month day = "scorpio" ↔ (month = 10 ∧ 23 ≤ day) ∨ (month = 11 ∧ day ≤ 21))
      ∧ (zodiac_sign month day = "sagittarius" ↔ (month = 11 ∧ 22 ≤ day) ∨ (month = 12 ∧ day ≤ 21))
      ∧ (zodiac_sign month day = "capricorn" ↔ (month = 12 ∧ 22 ≤ day) ∨ (month = 1 ∧ day ≤ 19))
      ∧ (zodiac_sign month day = "aquarius" ↔ (month = 1 ∧ 20 ≤ day) ∨ (month = 2 ∧ day ≤ 18))
      ∧ (zodiac_sign month day = "pisces" ↔ (month = 2 ∧ 19 ≤ day) ∨ (month = 3 ∧ day ≤ 20)))
    ∧ zodiac_sign 3 20 = "pisces"
    ∧ zodiac_sign 3 21 = "aries" := by
  refine ⟨?_, by decide, by decide⟩
  intro month day h1 h2 h3 h4
  interval_cases month <;> interval_cases day <;> decide

/-- Claim C6 witness: May 10 is taurus, derived from the cutoff
characterization. -/
theorem c6_zodiac_sign_witness : zodiac_sign 5 10 = "taurus" :=
  ((c6_zodiac_sign_total_and_cutoffs.1 5 10 (by decide) (by decide) (by decide)
      (by decide)).2.2.1).mpr (Or.inr ⟨rfl, by decide⟩)

theorem map_house_enum (idxs : List ℕ) (f : ℕ × ℕ → HouseCusp)
    (hf : ∀ p, (f p).house = p.1 + 1) :
    (idxs.enum.map f).map (fun h => h.house)
      = (List.range idxs.length).map (fun i => i + 1) := by
  rw [List.map_map]
  have h1 : ((fun h : HouseCusp => h.house) ∘ f) = fun p : ℕ × ℕ => p.1 + 1 :=
    funext fun p => hf p
  rw [h1, show (fun p : ℕ × ℕ => p.1 + 1) = ((fun i => i + 1) ∘ Prod.fst) from rfl,
    ← List.map_map, List.enum_map_fst]

/-- Claim C7 counterexample: when the underlying `swe.houses` call fails,
`compute_house_cusps` propagates the exception instead of returning the empty
sequence — the empty sequence only appears because the request handler
catches the exception. -/
theorem c7_failure_propagates :
    compute_house_cusps (Except.error "swisseph error")
        = Except.error "swisseph error"
    ∧ compute_house_cusps (Except.error "swisseph error")
        ≠ Except.ok ([] : List HouseCusp) :=
  ⟨rfl, fun h => by simp [compute_house_cusps] at h⟩

/-- Claim C7 (amended): on an ephemeris failure `compute_house_cusps`
propagates the exception (and its caller in the request handler turns that
into the empty list); given a 12- or 13-element cusp array it returns exactly
12 entries whose house numbers are 1..12 in ascending order (house 1 first),
never a partial list. -/
theorem c7_house_cusps_structure :
    (∀ e : String, compute_house_cusps (Except.error e) = Except.error e)
    ∧ (∀ e : String, horoscope_houses (Except.error e) = [])
    ∧ (∀ cusps : List ℚ, cusps.length = 12 ∨ cusps.length = 13 →
        Except.map (fun hs => hs.map (fun h => h.house))
            (compute_house_cusps (Except.ok cusps))
          = Except.ok ((List.range 12).map (fun i => i + 1))) := by
  refine ⟨fun e => rfl, fun e => rfl, ?_⟩
  intro cusps hlen
  rcases hlen with h12 | h13
  · have hcond : ¬ 13 ≤ cusps.length := by omega
    simp only [compute_house_cusps, hcond, if_false, Except.map]
    rw [map_house_enum _ _ (fun p => rfl)]
    simp [h12]
  · have hcond : 13 ≤ cusps.length := by omega
    simp only [compute_house_cusps, hcond, if_true, Except.map]
    rw [map_house_enum _ _ (fun p => rfl)]
    simp

/-- Claim C7 witness: a 12-element cusp array yields houses numbered 1..12. -/
theorem c7_house_cusps_structure_witness :
    Except.map (fun hs => hs.map (fun h => h.house))
        (compute_house_cusps (Except.ok (List.replicate 12 (0 : ℚ))))
      = Except.ok [1, 2, 3, 4, 5, 6, 7, 8, 9, 10, 11, 12] := by
  have h := c7_house_cusps_structure.2.2 (List.replicate 12 (0 : ℚ)) (Or.inl (by simp))
  rw [h]
  rfl

/-- Claim C9 counterexample: a geocoding failure that is not an HTTP error —
e.g. the 10-second timeout raising inside `httpx` — does NOT block the
request: the handler proceeds without coordinates (merely skipping the
astrology computations). -/
theorem c9_network_failure_not_blocking :
    horoscope_geo_step (geocode_location (UpstreamGeo.netExc "ReadTimeout"))
        = GeoHandling.proceedWith none
    ∧ runs_astrology
        (horoscope_geo_step (geocode_location (UpstreamGeo.netExc "ReadTimeout")))
        = false :=
  ⟨rfl, rfl⟩

/-- Claim C9 (amended): a geocoding failure reported as an HTTP error blocks
the whole request (non-200 upstream → 502, empty candidate list → 400); any
other geocoding exception lets the request proceed without coordinates; the
astrology/astronomy computations run only when coordinates were resolved. -/
theorem c9_geocoding_error_handling :
    (∀ (status : ℕ) (results : List (ℚ × ℚ)), status ≠ 200 →
        horoscope_geo_step (geocode_location (UpstreamGeo.response status results))
          = GeoHandling.abort 502 "Geocoding service error")
    ∧ horoscope_geo_step (geocode_location (UpstreamGeo.response 200 []))
        = GeoHandling.abort 400 "Could not geocode birth location"
    ∧ (∀ m : String,
        horoscope_geo_step (geocode_location (UpstreamGeo.netExc m))
          = GeoHandling.proceedWith none)
    ∧ (∀ g : GeoOutcome, runs_astrology (horoscope_geo_step g) = true
          ↔ ∃ lat lon, g = GeoOutcome.ok lat lon) := by
  refine ⟨?_, rfl, fun m => rfl, ?_⟩
  · intro status results hs
    simp only [geocode_location]
    rw [if_pos hs]
    rfl
  · intro g
    cases g with
    | ok lat lon =>
      exact ⟨fun _ => ⟨lat, lon, rfl⟩, fun _ => rfl⟩
    | httpExc c d => simp [horoscope_geo_step, runs_astrology]
    | exc m => simp [horoscope_geo_step, runs_astrology]

/-- Claim C9 witness: a 500 upstream response aborts the request with 502. -/
theorem c9_geocoding_error_handling_witness :
    horoscope_geo_step (geocode_location (UpstreamGeo.response 500 []))
      = GeoHandling.abort 502 "Geocoding service error" :=
  c9_geocoding_error_handling.1 500 [] (by decide)

theorem rhe_intCast (n : ℤ) : rhe ((n : ℚ)) = n := by
  unfold rhe
  rw [Int.fract_intCast, Int.floor_intCast]
  norm_num

theorem fmt1_int (q : ℚ) (n : ℤ) (h : q * 10 = (n : ℚ)) :
    fmt1 q = toString (n / 10) ++ "." ++ toString (n % 10) := by
  unfold fmt1
  rw [h, rhe_intCast]

theorem fmt1_five : fmt1 (5 : ℚ) = "5.0" := by
  rw [fmt1_int 5 50 (by norm_num)]
  decide

theorem fmt1_zero : fmt1 (0 : ℚ) = "0.0" := by
  rw [fmt1_int 0 0 (by norm_num)]
  decide

theorem fmt1_forty : fmt1 (40 : ℚ) = "40.0" := by
  rw [fmt1_int 40 400 (by norm_num)]
  decide

theorem degree_five : degree_to_sign_name (5 : ℚ) = "aries" := by
  unfold degree_to_sign_name pymod
  norm_num [sign_names]

theorem degree_zero : degree_to_sign_name (0 : ℚ) = "aries" := by
  unfold degree_to_sign_name pymod
  norm_num [sign_names]

theorem degree_forty : degree_to_sign_name (40 : ℚ) = "taurus" := by
  unfold degree_to_sign_name pymod
  norm_num [sign_names]

theorem ascendant_clause_five :
    ascendant_clause 5 = "Ascendant: aries (5.0°)" := by
  unfold ascendant_clause
  rw [degree_five, fmt1_five]
  decide

theorem planet_clause_sun :
    planet_clause "Sun" 0 = "Sun in aries (0.0°)" := by
  unfold planet_clause
  rw [degree_zero, fmt1_zero]
  decide

theorem planet_clause_moon :
    planet_clause "Moon" 40 = "Moon in taurus (40.0°)" := by
  unfold planet_clause
  rw [degree_forty, fmt1_forty]
  decide

theorem filterMap_clauses (ps : List (String × Option ℚ)) :
    ps.filterMap (fun p => p.2.map
        (fun d => p.1 ++ " in " ++ degree_to_sign_name d ++ " (" ++ fmt1 d ++ "°)"))
      = successful_planet_clauses ps := by
  induction ps with
  | nil => rfl
  | cons p rest ih =>
    rcases p with ⟨n, dOpt⟩
    cases dOpt with
    | none => simpa [List.filterMap_cons, successful_planet_clauses] using ih
    | some d =>
      simpa [List.filterMap_cons, successful_planet_clauses, planet_clause] using ih

theorem successful_planet_clauses_all_none :
    ∀ (ns : List String) (degs : List (Option ℚ)), (∀ x ∈ degs, x = none) →
      successful_planet_clauses (ns.zip degs) = [] := by
  intro ns
  induction ns with
  | nil => intro degs _; rfl
  | cons n ns ih =>
    intro degs h
    cases degs with
    | nil => rfl
    | cons d ds =>
      have hd : d = none := h d (by simp)
      subst hd
      simpa [List.zip_cons_cons, successful_planet_clauses] using
        ih ds (fun x hx => h x (by simp [hx]))

theorem compute_eq_amended (asc : Option ℚ) (degs : List (Option ℚ)) :
    compute_natal_summary asc degs = amended_natal_summary asc degs := by
  simp only [compute_natal_summary, amended_natal_summary]
  rw [filterMap_clauses]
  by_cases hps : successful_planet_clauses (planetNames.zip degs) = []
  · simp only [hps, if_pos rfl, List.take_nil]
    cases asc <;> simp [ascendant_clause]
  · rw [if_neg hps, if_neg (by simp [List.take_eq_nil_iff, hps])]
    cases asc <;> simp [ascendant_clause]

theorem compute_concrete_value :
    compute_natal_summary (some 5)
        [some 0, some 40, none, none, none, none, none, none, none, none]
      = "Ascendant: aries (5.0°); Planets: Sun in aries (0.0°), Moon in taurus (40.0°)" := by
  rw [compute_eq_amended]
  have hred : amended_natal_summary (some 5)
      [some 0, some 40, none, none, none, none, none, none, none, none]
      = String.intercalate "; " [ascendant_clause 5,
          "Planets: " ++ String.intercalate ", "
            [planet_clause "Sun" 0, planet_clause "Moon" 40]] := rfl
  rw [hred, ascendant_clause_five, planet_clause_sun, planet_clause_moon]
  decide

theorem claim_concrete_value :
    claim_natal_summary (some 5)
        [some 0, some 40, none, none, none, none, none, none, none, none]
      = "Ascendant: aries (5.0°); Sun in aries (0.0°); Moon in taurus (40.0°)" := by
  have hred : claim_natal_summary (some 5)
      [some 0, some 40, none, none, none, none, none, none, none, none]
      = String.intercalate "; " [ascendant_clause 5,
          planet_clause "Sun" 0, planet_clause "Moon" 40] := rfl
  rw [hred, ascendant_clause_five, planet_clause_sun, planet_clause_moon]
  decide

/-- Claim C8 counterexample: with a successful ascendant (5°) and two
successful bodies (Sun 0°, Moon 40°), the code's output joins the planet
clauses with ", " inside one "Planets: " part, not as individually
semicolon-joined clauses as the claim states. -/
theorem c8_claim_format_refuted :
    compute_natal_summary (some 5)
        [some 0, some 40, none, none, none, none, none, none, none, none]
      ≠ claim_natal_summary (some 5)
        [some 0, some 40, none, none, none, none, none, none, none, none] := by
  rw [compute_concrete_value, claim_concrete_value]
  decide

/-- Claim C8 (amended): the natal summary never raises given the ephemeris
outcomes; it is the "; "-join of the ascendant clause
"Ascendant: sign (deg°)" (omitted when the ascendant fails) and — when at
least one body succeeds — ONE clause "Planets: " holding the ", "-joined
clauses "Name in Sign (deg°)" of the first 6 successfully computed bodies in
the fixed order Sun..Pluto, skipping exactly the failed ones; when everything
fails the summary is the empty string. -/
theorem c8_natal_summary_structure :
    (∀ (asc : Option ℚ) (degs : List (Option ℚ)),
        compute_natal_summary asc degs = amended_natal_summary asc degs)
    ∧ (∀ degs : List (Option ℚ), (∀ x ∈ degs, x = none) →
        compute_natal_summary none degs = "")
    ∧ compute_natal_summary (some 5)
        [some 0, some 40, none, none, none, none, none, none, none, none]
        = "Ascendant: aries (5.0°); Planets: Sun in aries (0.0°), Moon in taurus (40.0°)" := by
  refine ⟨compute_eq_amended, ?_, compute_concrete_value⟩
  intro degs h
  rw [compute_eq_amended none degs]
  simp only [amended_natal_summary,
    successful_planet_clauses_all_none planetNames degs h]
  rfl

/-- Claim C8 witness: when every computation fails the summary is empty. -/
theorem c8_natal_summary_structure_witness :
    compute_natal_summary none [none, none] = "" :=
  c8_natal_summary_structure.2.1 [none, none] (by simp)

end AiHoroscope
